import Mathlib

/-!
Verification of the product-image-generator server (Express application).
The definitions below shallowly embed the JavaScript source: the multer
fileFilter, the two provider clients (Hugging Face and Replicate) and the
POST /generate and POST /generate-simple route handlers. Remote HTTP calls
are modelled by an explicit RemoteWorld record giving each call its outcome,
and each handler additionally reports which provider clients performed a
network call, which Replicate payload was sent, and which files were written.
-/

namespace ProductImageGenerator

/-- Truthiness of an optional JS string value: undefined and the empty
string are falsy, every other string is truthy. -/
def jsTruthy : Option String → Bool
  | none => false
  | some s => !(s == "")

/-- JS expression a || b where a is an optional string and b a string
default, as in the fullPrompt computation. -/
def jsOrDefault (a : Option String) (b : String) : String :=
  match a with
  | none => b
  | some s => if s == "" then b else s

/-- JS expression a || b on two optional strings, as in the expression
result.urls?.get || result.id of the fallback branch. -/
def jsOrOpt (a b : Option String) : Option String :=
  match a with
  | none => b
  | some s => if s == "" then b else some s

/-- Index of the last dot of a character list, if any. -/
def lastDotPos : List Char → Option Nat
  | [] => none
  | c :: cs =>
    match lastDotPos cs with
    | some i => some (i + 1)
    | none => if c == '.' then some 0 else none

/-- Model of Node path.extname on a base filename: the suffix from the last
dot, or the empty string when there is no dot or the only dot is leading. -/
def extname (s : String) : String :=
  match lastDotPos s.data with
  | none => ""
  | some 0 => ""
  | some i => String.mk (s.data.drop i)

/-- ASCII lower-casing of a string, as JS toLowerCase acts on the
extensions at hand; structural recursion over the character list. -/
def strToLower (s : String) : String :=
  String.mk (s.data.map Char.toLower)

/-- Whether the pattern list matches at the head of the other list. -/
def leadMatch : List Char → List Char → Bool
  | [], _ => true
  | _ :: _, [] => false
  | p :: ps, c :: cs => p == c && leadMatch ps cs

/-- Whether the pattern occurs as a contiguous run anywhere in the list. -/
def hasSubAux (pat : List Char) : List Char → Bool
  | [] => leadMatch pat []
  | c :: cs => leadMatch pat (c :: cs) || hasSubAux pat cs

/-- Whether pat occurs as a substring of s: this is what an unanchored
JS regex test of a literal alternative performs. -/
def strHasSub (s pat : String) : Bool :=
  hasSubAux pat.data s.data

/-- The unanchored regex test of jpeg|jpg|png|gif|webp used by the v2
multer fileFilter. -/
def allowedTypesTest (s : String) : Bool :=
  strHasSub s "jpeg" || strHasSub s "jpg" || strHasSub s "png" ||
    strHasSub s "gif" || strHasSub s "webp"

/-- The unanchored regex test of jpeg|jpg|png|gif used by the app.js
multer fileFilter, which lacks webp. -/
def allowedTypesTestV1 (s : String) : Bool :=
  strHasSub s "jpeg" || strHasSub s "jpg" || strHasSub s "png" ||
    strHasSub s "gif"

/-- The v2 multer fileFilter: accept iff the lower-cased extension passes
the regex test and the declared mimetype passes the same test. -/
def fileFilterAccepts (originalname mimetype : String) : Bool :=
  allowedTypesTest (strToLower (extname originalname)) && allowedTypesTest mimetype

/-- The app.js multer fileFilter, identical but without webp in the
alternative list. -/
def fileFilterAcceptsV1 (originalname mimetype : String) : Bool :=
  allowedTypesTestV1 (strToLower (extname originalname)) && allowedTypesTestV1 mimetype

/-- Process environment: the two provider credentials. -/
structure Env where
  hfKey : Option String
  replicateToken : Option String
deriving DecidableEq

/-- Error message thrown by generateWithHuggingFace when no key is set. -/
def hfNotConfiguredMsg : String :=
  "Hugging Face API key not configured. Get free key at https://huggingface.co/settings/tokens"

/-- Error message thrown by generateWithReplicate when no token is set. -/
def replicateNotConfiguredMsg : String :=
  "Replicate API token not configured. Get free credits at https://replicate.com"

/-- The fixed default fashion-photography prompt of the /generate handler. -/
def defaultPrompt : String :=
  "Professional fashion model wearing elegant dress, studio lighting, high quality, detailed, commercial photography"

/-- The hardcoded human_img placeholder sent on every Replicate call. -/
def humanImgDefault : String :=
  "https://example.com/model.jpg"

/-- Hugging Face remediation line of the /generate failure body. -/
def hfSetupText : String :=
  "Add HUGGINGFACE_API_KEY to .env - Get free at https://huggingface.co/settings/tokens"

/-- Replicate remediation line of the /generate failure body. -/
def replicateSetupText : String :=
  "Add REPLICATE_API_TOKEN to .env - Get free credits at https://replicate.com"

/-- Remediation line of the /generate-simple failure body. -/
def simpleSetupText : String :=
  "Add HUGGINGFACE_API_KEY to .env file. Get free key at https://huggingface.co/settings/tokens"

/-- Descriptor returned by the Replicate predictions endpoint, flattened to
the two fields the handler reads: urls.get (absent when urls or get is
missing) and id. -/
structure ReplicateResult where
  urlsGet : Option String
  id : Option String
deriving DecidableEq

/-- The input payload generateWithReplicate posts to the predictions
endpoint. -/
structure ReplicateInput where
  garm_img : String
  human_img : String
  garment_des : String
deriving DecidableEq

/-- Outcomes of the remote calls a request may perform, plus the value of
Date.now() at the instant the generated filename is built. -/
structure RemoteWorld where
  hfOutcome : Except String (List Nat)
  replicateOutcome : Except String ReplicateResult
  now : Nat

/-- generateWithHuggingFace: throws before any network call when the key is
absent; otherwise performs one network call whose outcome is the remote
response. Second component records whether a network call was made. -/
def generateWithHuggingFace (env : Env) (remote : Except String (List Nat)) :
    Except String (List Nat) × Bool :=
  match env.hfKey with
  | none => (.error hfNotConfiguredMsg, false)
  | some _ => (remote, true)

/-- generateWithReplicate: throws before any network call when the token is
absent; otherwise posts the payload with garm_img the image URL, human_img
the hardcoded placeholder and garment_des the prompt. Components: result,
whether a network call was made, the payload sent (if any). -/
def generateWithReplicate (env : Env) (prompt imageUrl : String)
    (remote : Except String ReplicateResult) :
    Except String ReplicateResult × Bool × Option ReplicateInput :=
  match env.replicateToken with
  | none => (.error replicateNotConfiguredMsg, false, none)
  | some _ =>
    (remote, true,
      some { garm_img := imageUrl, human_img := humanImgDefault, garment_des := prompt })

/-- The name generated-<epochMillis>.png under which provider bytes are
saved; note it contains no random component. -/
def generatedFilename (now : Nat) : String :=
  "generated-" ++ Nat.repr now ++ ".png"

/-- Body of the 200 response of POST /generate. generatedImage and service
are optional because the handler serialises them even when the variables
were never assigned. -/
structure GenerateOkBody where
  message : String
  uploadedImage : String
  generatedImage : Option String
  prompt : String
  service : Option String
  status : String
deriving DecidableEq

/-- Body of the 500 response of POST /generate. -/
structure GenerateErrBody where
  error : String
  details : String
  setupHuggingFace : String
  setupReplicate : String
deriving DecidableEq

/-- HTTP response of POST /generate. -/
inductive GenResponse where
  | ok (body : GenerateOkBody)
  | badRequest (message : String)
  | serverError (body : GenerateErrBody)
deriving DecidableEq

/-- Observable outcome of one POST /generate request: the response plus
which provider calls happened, the Replicate payload sent, and the files
written to the generated area. -/
structure GenOutcome where
  response : GenResponse
  hfNetworkCalled : Bool
  replicateInvoked : Bool
  replicateNetworkCalled : Bool
  replicateRequest : Option ReplicateInput
  filesWritten : List String
deriving DecidableEq

/-- Multipart body of POST /generate: the stored upload path (when a file
was attached) and the prompt and service fields. -/
structure GenerateRequest where
  file : Option String
  prompt : Option String
  service : Option String
deriving DecidableEq

/-- The branch condition of the handler: !service || service === 'huggingface'. -/
def hfRoute (service : Option String) : Bool :=
  !(jsTruthy service) || service == some "huggingface"

/-- The POST /generate handler. Mirrors the source: 400 without a file;
when the service field is absent, empty or huggingface, try Hugging Face,
and on its failure fall back to Replicate exactly when REPLICATE_API_TOKEN
is set, else answer 500; when the service field holds any other value the
whole block is skipped and the handler answers 200 with status completed
and no generatedImage. -/
def postGenerate (env : Env) (req : GenerateRequest) (world : RemoteWorld)
    (host : String) : GenOutcome :=
  match req.file with
  | none =>
    { response := .badRequest "No image file provided",
      hfNetworkCalled := false, replicateInvoked := false,
      replicateNetworkCalled := false, replicateRequest := none,
      filesWritten := [] }
  | some filePath =>
    let uploadedImageUrl := host ++ "/" ++ filePath
    let fullPrompt := jsOrDefault req.prompt defaultPrompt
    if hfRoute req.service then
      match (generateWithHuggingFace env world.hfOutcome).1 with
      | .ok _bytes =>
        let filename := generatedFilename world.now
        { response := .ok
            { message := "Image processing completed",
              uploadedImage := uploadedImageUrl,
              generatedImage := some (host ++ "/generated/" ++ filename),
              prompt := fullPrompt,
              service := some "Hugging Face (FREE)",
              status := "completed" },
          hfNetworkCalled := (generateWithHuggingFace env world.hfOutcome).2,
          replicateInvoked := false, replicateNetworkCalled := false,
          replicateRequest := none, filesWritten := [filename] }
      | .error _hfMsg =>
        match env.replicateToken with
        | some _ =>
          match (generateWithReplicate env fullPrompt uploadedImageUrl world.replicateOutcome).1 with
          | .ok result =>
            { response := .ok
                { message := "Image processing completed",
                  uploadedImage := uploadedImageUrl,
                  generatedImage := jsOrOpt result.urlsGet result.id,
                  prompt := fullPrompt,
                  service := some "Replicate (Free Tier)",
                  status := "completed" },
              hfNetworkCalled := (generateWithHuggingFace env world.hfOutcome).2,
              replicateInvoked := true,
              replicateNetworkCalled :=
                (generateWithReplicate env fullPrompt uploadedImageUrl world.replicateOutcome).2.1,
              replicateRequest :=
                (generateWithReplicate env fullPrompt uploadedImageUrl world.replicateOutcome).2.2,
              filesWritten := [] }
          | .error m =>
            { response := .serverError
                { error := "Failed to generate product image", details := m,
                  setupHuggingFace := hfSetupText,
                  setupReplicate := replicateSetupText },
              hfNetworkCalled := (generateWithHuggingFace env world.hfOutcome).2,
              replicateInvoked := true,
              replicateNetworkCalled :=
                (generateWithReplicate env fullPrompt uploadedImageUrl world.replicateOutcome).2.1,
              replicateRequest :=
                (generateWithReplicate env fullPrompt uploadedImageUrl world.replicateOutcome).2.2,
              filesWritten := [] }
        | none =>
          { response := .serverError
              { error := "Failed to generate product image",
                details := "No AI service configured properly",
                setupHuggingFace := hfSetupText,
                setupReplicate := replicateSetupText },
            hfNetworkCalled := (generateWithHuggingFace env world.hfOutcome).2,
            replicateInvoked := false, replicateNetworkCalled := false,
            replicateRequest := none, filesWritten := [] }
    else
      { response := .ok
          { message := "Image processing completed",
            uploadedImage := uploadedImageUrl, generatedImage := none,
            prompt := fullPrompt, service := none, status := "completed" },
        hfNetworkCalled := false, replicateInvoked := false,
        replicateNetworkCalled := false, replicateRequest := none,
        filesWritten := [] }

/-- Body of the 200 response of POST /generate-simple. -/
structure SimpleOkBody where
  message : String
  generatedImage : String
  prompt : String
  service : String
deriving DecidableEq

/-- Body of the 500 response of POST /generate-simple. -/
structure SimpleErrBody where
  error : String
  details : String
  setup : String
deriving DecidableEq

/-- HTTP response of POST /generate-simple. -/
inductive SimpleResponse where
  | ok (body : SimpleOkBody)
  | badRequest (message : String)
  | serverError (body : SimpleErrBody)
deriving DecidableEq

/-- Observable outcome of one POST /generate-simple request. -/
structure SimpleOutcome where
  response : SimpleResponse
  hfNetworkCalled : Bool
  replicateInvoked : Bool
  filesWritten : List String
deriving DecidableEq

/-- The POST /generate-simple handler. Mirrors the source: 400 when the
prompt is falsy; otherwise one Hugging Face call, saving the bytes under
generated-<now>.png on success and answering 500 with the error details
and setup text on failure. Replicate is never mentioned by this handler. -/
def postGenerateSimple (env : Env) (prompt : Option String) (world : RemoteWorld)
    (host : String) : SimpleOutcome :=
  if jsTruthy prompt then
    match (generateWithHuggingFace env world.hfOutcome).1 with
    | .ok _bytes =>
      let filename := generatedFilename world.now
      { response := .ok
          { message := "Image generated successfully",
            generatedImage := host ++ "/generated/" ++ filename,
            prompt := prompt.getD "",
            service := "Hugging Face (FREE)" },
        hfNetworkCalled := (generateWithHuggingFace env world.hfOutcome).2,
        replicateInvoked := false, filesWritten := [filename] }
    | .error m =>
      { response := .serverError
          { error := "Failed to generate image", details := m,
            setup := simpleSetupText },
        hfNetworkCalled := (generateWithHuggingFace env world.hfOutcome).2,
        replicateInvoked := false, filesWritten := [] }
  else
    { response := .badRequest "Prompt is required",
      hfNetworkCalled := false, replicateInvoked := false, filesWritten := [] }

end ProductImageGenerator

namespace ProductImageGenerator

lemma hfRoute_explicit_hf : hfRoute (some "huggingface") = true := by decide

lemma hfRoute_none : hfRoute none = true := by decide

/-- C1: with service explicitly huggingface, a Hugging Face failure and a
configured Replicate token, the handler performs the fallback network call
to Replicate and answers through it, refuting the claim that no fallback
happens on an explicit provider choice. -/
theorem c1_counterexample :
    (postGenerate ⟨some "hf-key", some "rep-token"⟩
        ⟨some "uploads/image-1.png", none, some "huggingface"⟩
        ⟨.error "model loading", .ok ⟨some "https://replicate.delivery/out.png", some "pred-1"⟩, 999⟩
        "http://localhost:3000").replicateNetworkCalled = true ∧
    (postGenerate ⟨some "hf-key", some "rep-token"⟩
        ⟨some "uploads/image-1.png", none, some "huggingface"⟩
        ⟨.error "model loading", .ok ⟨some "https://replicate.delivery/out.png", some "pred-1"⟩, 999⟩
        "http://localhost:3000").response = .ok
      ⟨"Image processing completed", "http://localhost:3000/uploads/image-1.png",
        some "https://replicate.delivery/out.png", defaultPrompt,
        some "Replicate (Free Tier)", "completed"⟩ := by
  exact ⟨rfl, rfl⟩

/-- C1 (amended): when the caller explicitly sets service to huggingface and
the Hugging Face call fails, the handler falls back to Replicate exactly when
REPLICATE_API_TOKEN is configured, the same behaviour as when no service was
given; only without the token does the request end in the 500 failure body. -/
theorem c1_explicit_hf_fallback (env : Env) (req : GenerateRequest)
    (world : RemoteWorld) (host f msg : String) (hfile : req.file = some f)
    (hsvc : req.service = some "huggingface")
    (hfail : (generateWithHuggingFace env world.hfOutcome).1 = .error msg) :
    (∀ t, env.replicateToken = some t →
      (postGenerate env req world host).replicateInvoked = true ∧
      (postGenerate env req world host).replicateNetworkCalled = true) ∧
    (env.replicateToken = none →
      (postGenerate env req world host).replicateInvoked = false ∧
      (postGenerate env req world host).response = .serverError
        ⟨"Failed to generate product image", "No AI service configured properly",
          hfSetupText, replicateSetupText⟩) := by
  constructor
  · intro t htok
    rcases hw : world.replicateOutcome with m | r <;>
      simp [postGenerate, hfile, hsvc, hfRoute_explicit_hf, hfail, htok,
        generateWithReplicate, hw]
  · intro htok
    simp [postGenerate, hfile, hsvc, hfRoute_explicit_hf, hfail, htok]

/-- C1 witness: instantiation of the amended theorem at a concrete request. -/
theorem c1_explicit_hf_fallback_witness :
    (postGenerate ⟨some "k", some "t"⟩ ⟨some "uploads/a.png", none, some "huggingface"⟩
        ⟨.error "down", .ok ⟨some "u", some "i"⟩, 5⟩ "http://h").replicateNetworkCalled = true :=
  ((c1_explicit_hf_fallback ⟨some "k", some "t"⟩
      ⟨some "uploads/a.png", none, some "huggingface"⟩
      ⟨.error "down", .ok ⟨some "u", some "i"⟩, 5⟩
      "http://h" "uploads/a.png" "down" rfl rfl rfl).1 "t" rfl).2

/-- C2: with service explicitly set to replicate, the handler skips the whole
generation block: neither provider is invoked and the response is a 200 with
status completed and no generatedImage or service value, refuting the claim
that the Replicate preference is honored. -/
theorem c2_counterexample :
    (postGenerate ⟨some "hfk", some "rt"⟩ ⟨some "uploads/b.png", none, some "replicate"⟩
        ⟨.ok [1], .ok ⟨some "url", some "id0"⟩, 7⟩ "http://h").replicateInvoked = false ∧
    (postGenerate ⟨some "hfk", some "rt"⟩ ⟨some "uploads/b.png", none, some "replicate"⟩
        ⟨.ok [1], .ok ⟨some "url", some "id0"⟩, 7⟩ "http://h").replicateNetworkCalled = false ∧
    (postGenerate ⟨some "hfk", some "rt"⟩ ⟨some "uploads/b.png", none, some "replicate"⟩
        ⟨.ok [1], .ok ⟨some "url", some "id0"⟩, 7⟩ "http://h").hfNetworkCalled = false ∧
    (postGenerate ⟨some "hfk", some "rt"⟩ ⟨some "uploads/b.png", none, some "replicate"⟩
        ⟨.ok [1], .ok ⟨some "url", some "id0"⟩, 7⟩ "http://h").response = .ok
      ⟨"Image processing completed", "http://h/uploads/b.png", none, defaultPrompt,
        none, "completed"⟩ := by
  exact ⟨rfl, rfl, rfl, rfl⟩

/-- C2 (amended): when the service field holds any value other than absent,
empty or huggingface, the branch condition is false, so no provider client
runs at all and the handler answers 200 with status completed, with the
generatedImage and service fields absent and no file written. -/
theorem c2_explicit_other_service_skips_providers (env : Env)
    (req : GenerateRequest) (world : RemoteWorld) (host f : String)
    (hfile : req.file = some f) (hs : hfRoute req.service = false) :
    postGenerate env req world host =
      { response := .ok
          { message := "Image processing completed",
            uploadedImage := host ++ "/" ++ f, generatedImage := none,
            prompt := jsOrDefault req.prompt defaultPrompt, service := none,
            status := "completed" },
        hfNetworkCalled := false, replicateInvoked := false,
        replicateNetworkCalled := false, replicateRequest := none,
        filesWritten := [] } := by
  simp [postGenerate, hfile, hs]

/-- C2 witness: instantiation of the amended theorem at a concrete request. -/
theorem c2_explicit_other_service_skips_providers_witness :
    postGenerate ⟨some "hfk", some "rt"⟩ ⟨some "uploads/b2.png", none, some "replicate"⟩
        ⟨.ok [1], .ok ⟨some "url", some "id0"⟩, 7⟩ "http://h" =
      { response := .ok
          { message := "Image processing completed",
            uploadedImage := "http://h" ++ "/" ++ "uploads/b2.png", generatedImage := none,
            prompt := jsOrDefault none defaultPrompt, service := none,
            status := "completed" },
        hfNetworkCalled := false, replicateInvoked := false,
        replicateNetworkCalled := false, replicateRequest := none,
        filesWritten := [] } :=
  c2_explicit_other_service_skips_providers ⟨some "hfk", some "rt"⟩
    ⟨some "uploads/b2.png", none, some "replicate"⟩
    ⟨.ok [1], .ok ⟨some "url", some "id0"⟩, 7⟩ "http://h" "uploads/b2.png" rfl (by decide)

end ProductImageGenerator

namespace ProductImageGenerator

/-- C4: the fileFilter regex test is an unanchored substring match, so the
extension .xpng, which is outside the allow-list, passes it; combined with a
matching declared media type the upload is accepted, refuting the claim that
such filenames are always rejected. -/
theorem c4_counterexample :
    fileFilterAccepts "dress.xpng" "image/png" = true ∧
    fileFilterAcceptsV1 "dress.xpng" "image/png" = true ∧
    strToLower (extname "dress.xpng") = ".xpng" ∧
    (".xpng" ≠ ".jpeg" ∧ ".xpng" ≠ ".jpg" ∧ ".xpng" ≠ ".png" ∧
      ".xpng" ≠ ".gif" ∧ ".xpng" ≠ ".webp") := by
  decide

/-- C4 (amended): the fileFilter rejects an upload whenever the lower-cased
extension does not contain any of jpeg, jpg, png, gif, webp as a substring
(for app.js, without webp), regardless of the declared media type; the check
is substring containment, not equality with the allow-list. -/
theorem c4_reject_nonmatching_extension (name mime : String) :
    (allowedTypesTest (strToLower (extname name)) = false →
      fileFilterAccepts name mime = false) ∧
    (allowedTypesTestV1 (strToLower (extname name)) = false →
      fileFilterAcceptsV1 name mime = false) := by
  constructor <;> intro h <;>
    simp [fileFilterAccepts, fileFilterAcceptsV1, h]

/-- C4 witness: a .txt upload is rejected even with an image media type. -/
theorem c4_reject_nonmatching_extension_witness :
    fileFilterAccepts "file.txt" "image/png" = false :=
  (c4_reject_nonmatching_extension "file.txt" "image/png").1 (by decide)

/-- C7: two successful generate-simple calls whose Date.now values fall in
the same millisecond write the same filename generated-999.png: there is no
random suffix and the names are not unique, refuting the claim. -/
theorem c7_counterexample :
    (postGenerateSimple ⟨some "k", none⟩ (some "red sneaker")
        ⟨.ok [1], .error "x", 999⟩ "http://h").response = .ok
      ⟨"Image generated successfully", "http://h/generated/generated-999.png",
        "red sneaker", "Hugging Face (FREE)"⟩ ∧
    (postGenerateSimple ⟨some "k", none⟩ (some "blue sneaker")
        ⟨.ok [2], .error "x", 999⟩ "http://h").response = .ok
      ⟨"Image generated successfully", "http://h/generated/generated-999.png",
        "blue sneaker", "Hugging Face (FREE)"⟩ ∧
    (postGenerateSimple ⟨some "k", none⟩ (some "red sneaker")
        ⟨.ok [1], .error "x", 999⟩ "http://h").filesWritten =
      (postGenerateSimple ⟨some "k", none⟩ (some "blue sneaker")
        ⟨.ok [2], .error "x", 999⟩ "http://h").filesWritten ∧
    (postGenerateSimple ⟨some "k", none⟩ (some "red sneaker")
        ⟨.ok [1], .error "x", 999⟩ "http://h").filesWritten =
      ["generated-999.png"] := by
  exact ⟨rfl, rfl, rfl, rfl⟩

/-- C7 (amended): a successful generation call writes exactly the file
generated-<epochMillis>.png, a name determined solely by the clock tick with
no random component, so any two successful calls within the same
millisecond-resolution tick produce identical, colliding filenames. -/
theorem c7_filename_determined_by_tick (env : Env) (p q : Option String)
    (w1 w2 : RemoteWorld) (host1 host2 : String) (b1 b2 : List Nat)
    (h1 : (generateWithHuggingFace env w1.hfOutcome).1 = .ok b1)
    (h2 : (generateWithHuggingFace env w2.hfOutcome).1 = .ok b2)
    (hp : jsTruthy p = true) (hq : jsTruthy q = true)
    (hnow : w1.now = w2.now) :
    (postGenerateSimple env p w1 host1).filesWritten = [generatedFilename w1.now] ∧
    (postGenerateSimple env q w2 host2).filesWritten = [generatedFilename w2.now] ∧
    (postGenerateSimple env p w1 host1).filesWritten =
      (postGenerateSimple env q w2 host2).filesWritten := by
  refine ⟨?_, ?_, ?_⟩ <;>
    simp [postGenerateSimple, hp, hq, h1, h2, hnow]

/-- C7 witness: instantiation of the amended theorem at two concrete calls
sharing the clock tick 999. -/
theorem c7_filename_determined_by_tick_witness :
    (postGenerateSimple ⟨some "k2", none⟩ (some "a dress")
        ⟨.ok [3], .error "y", 999⟩ "http://h1").filesWritten =
      (postGenerateSimple ⟨some "k2", none⟩ (some "a coat")
        ⟨.ok [4], .error "y", 999⟩ "http://h2").filesWritten :=
  (c7_filename_determined_by_tick ⟨some "k2", none⟩ (some "a dress") (some "a coat")
    ⟨.ok [3], .error "y", 999⟩ ⟨.ok [4], .error "y", 999⟩ "http://h1" "http://h2"
    [3] [4] rfl rfl rfl rfl rfl).2.2

/-- C8: with neither credential configured, a request that names the service
replicate is answered 200 with status completed rather than failing with a
configuration error, and a request without a file is answered 400; so not
every credential-less request fails fast with a ConfigurationError carrying
remediation text, refuting the claim as universally stated. -/
theorem c8_counterexample :
    (postGenerate ⟨none, none⟩ ⟨some "uploads/e.png", none, some "replicate"⟩
        ⟨.error "never", .error "never", 4⟩ "http://h").hfNetworkCalled = false ∧
    (postGenerate ⟨none, none⟩ ⟨some "uploads/e.png", none, some "replicate"⟩
        ⟨.error "never", .error "never", 4⟩ "http://h").replicateNetworkCalled = false ∧
    (postGenerate ⟨none, none⟩ ⟨some "uploads/e.png", none, some "replicate"⟩
        ⟨.error "never", .error "never", 4⟩ "http://h").response = .ok
      ⟨"Image processing completed", "http://h/uploads/e.png", none, defaultPrompt,
        none, "completed"⟩ ∧
    (postGenerate ⟨none, none⟩ ⟨none, none, none⟩
        ⟨.error "never", .error "never", 4⟩ "http://h").response =
      .badRequest "No image file provided" := by
  exact ⟨rfl, rfl, rfl, rfl⟩

/-- C8 (amended): for a request carrying a file whose service field is
absent, empty or huggingface, when neither credential is configured the
request terminates in the 500 failure body with setup remediation for both
providers and no network call to either provider is attempted; requests
naming another service are answered 200 without any provider call, and
requests without a file are answered 400. -/
theorem c8_no_creds_fail_fast (env : Env) (req : GenerateRequest)
    (world : RemoteWorld) (host f : String)
    (hhf : env.hfKey = none) (hrt : env.replicateToken = none)
    (hfile : req.file = some f) (hroute : hfRoute req.service = true) :
    (postGenerate env req world host).hfNetworkCalled = false ∧
    (postGenerate env req world host).replicateInvoked = false ∧
    (postGenerate env req world host).replicateNetworkCalled = false ∧
    (postGenerate env req world host).response = .serverError
      ⟨"Failed to generate product image", "No AI service configured properly",
        hfSetupText, replicateSetupText⟩ := by
  refine ⟨?_, ?_, ?_, ?_⟩ <;>
    simp [postGenerate, hfile, hroute, generateWithHuggingFace, hhf, hrt]

/-- C8 witness: instantiation of the amended theorem at a concrete request
with no credentials configured. -/
theorem c8_no_creds_fail_fast_witness :
    (postGenerate ⟨none, none⟩ ⟨some "uploads/f.png", none, none⟩
        ⟨.error "never", .error "never", 11⟩ "http://h").response = .serverError
      ⟨"Failed to generate product image", "No AI service configured properly",
        hfSetupText, replicateSetupText⟩ :=
  (c8_no_creds_fail_fast ⟨none, none⟩ ⟨some "uploads/f.png", none, none⟩
    ⟨.error "never", .error "never", 11⟩ "http://h" "uploads/f.png"
    rfl rfl rfl (by decide)).2.2.2

end ProductImageGenerator

namespace ProductImageGenerator

lemma jsOrDefault_defaultPrompt_ne_empty (p : Option String) :
    jsOrDefault p defaultPrompt ≠ "" := by
  cases p with
  | none => decide
  | some s =>
    by_cases h : s == ""
    · simp [jsOrDefault, h]
      decide
    · simp [jsOrDefault, h]
      exact fun hs => h (by simp [hs])

lemma generated_url_ne_empty (a c : String) : a ++ "/generated/" ++ c ≠ "" := by
  intro h
  have hlen := congrArg String.length h
  rw [String.length_append, String.length_append] at hlen
  have h11 : ("/generated/" : String).length = 11 := rfl
  rw [h11] at hlen
  simp [String.length_empty] at hlen

/-- C3: a request naming the service replicate is answered with status
completed while the generatedImage field is absent, refuting the claim that
no request path yields a completed status without an output location. -/
theorem c3_counterexample :
    (postGenerate ⟨some "hfk2", some "rt2"⟩
        ⟨some "uploads/c.png", some "prompt text", some "dalle"⟩
        ⟨.ok [0], .ok ⟨none, none⟩, 9⟩ "http://x").response = .ok
      ⟨"Image processing completed", "http://x/uploads/c.png", none,
        "prompt text", none, "completed"⟩ := by
  exact rfl

/-- C3 (amended): restricted to requests routed through the provider block,
that is with service absent, empty or huggingface, every 200 response has
status completed and a non-empty generatedImage, backed either by a file
written to the generated area (Hugging Face) or by the provider-returned
descriptor value urls.get or id (Replicate), the latter provided that
descriptor value is present and non-empty; requests naming another service
are answered completed with the field absent. -/
theorem c3_completed_has_output (env : Env) (req : GenerateRequest)
    (world : RemoteWorld) (host : String)
    (hroute : hfRoute req.service = true)
    (hdesc : ∀ r, world.replicateOutcome = .ok r →
      ∃ d, jsOrOpt r.urlsGet r.id = some d ∧ d ≠ "")
    (body : GenerateOkBody)
    (hresp : (postGenerate env req world host).response = .ok body) :
    body.status = "completed" ∧
    ∃ s, body.generatedImage = some s ∧ s ≠ "" ∧
      ((∃ fn, fn ∈ (postGenerate env req world host).filesWritten ∧
          s = host ++ "/generated/" ++ fn) ∨
        (∃ r, world.replicateOutcome = .ok r ∧ jsOrOpt r.urlsGet r.id = some s)) := by
  rcases hfile : req.file with _ | f
  · simp [postGenerate, hfile] at hresp
  · rcases hhf : (generateWithHuggingFace env world.hfOutcome).1 with m | b
    · rcases htok : env.replicateToken with _ | t
      · simp [postGenerate, hfile, hroute, hhf, htok] at hresp
      · rcases hrep : world.replicateOutcome with e | r
        · simp [postGenerate, hfile, hroute, hhf, htok,
            generateWithReplicate, hrep] at hresp
        · obtain ⟨d, hd, hdne⟩ := hdesc r hrep
          simp [postGenerate, hfile, hroute, hhf, htok,
            generateWithReplicate, hrep] at hresp
          refine ⟨?_, d, ?_, hdne, Or.inr ⟨r, rfl, hd⟩⟩
          · rw [← hresp]
          · rw [← hresp]
            exact hd
    · simp [postGenerate, hfile, hroute, hhf] at hresp
      refine ⟨?_, host ++ "/generated/" ++ generatedFilename world.now, ?_,
        generated_url_ne_empty host (generatedFilename world.now),
        Or.inl ⟨generatedFilename world.now, ?_, rfl⟩⟩
      · rw [← hresp]
      · rw [← hresp]
      · simp [postGenerate, hfile, hroute, hhf]

/-- C3 witness: instantiation of the amended theorem on a concrete request
answered through the Hugging Face path. -/
theorem c3_completed_has_output_witness :
    (⟨"Image processing completed", "http://w/uploads/d.png",
        some "http://w/generated/generated-3.png", defaultPrompt,
        some "Hugging Face (FREE)", "completed"⟩ : GenerateOkBody).status = "completed" ∧
    ∃ s, (⟨"Image processing completed", "http://w/uploads/d.png",
        some "http://w/generated/generated-3.png", defaultPrompt,
        some "Hugging Face (FREE)", "completed"⟩ : GenerateOkBody).generatedImage = some s ∧
      s ≠ "" ∧
      ((∃ fn, fn ∈ (postGenerate ⟨some "k3", none⟩ ⟨some "uploads/d.png", none, none⟩
            ⟨.ok [1], .error "irr", 3⟩ "http://w").filesWritten ∧
          s = "http://w" ++ "/generated/" ++ fn) ∨
        (∃ r, (⟨.ok [1], .error "irr", 3⟩ : RemoteWorld).replicateOutcome = .ok r ∧
          jsOrOpt r.urlsGet r.id = some s)) :=
  c3_completed_has_output ⟨some "k3", none⟩ ⟨some "uploads/d.png", none, none⟩
    ⟨.ok [1], .error "irr", 3⟩ "http://w" (by decide)
    (fun r hr => absurd hr (fun h => Except.noConfusion h))
    ⟨"Image processing completed", "http://w/uploads/d.png",
      some "http://w/generated/generated-3.png", defaultPrompt,
      some "Hugging Face (FREE)", "completed"⟩ rfl

end ProductImageGenerator

namespace ProductImageGenerator

/-- C5: for a request with a file and no service field whose Hugging Face
call fails, when REPLICATE_API_TOKEN is present the Replicate network call
is made and the request is answered 200 exactly when the Replicate call
succeeds and 500 exactly when it fails; when the token is absent Replicate
is never invoked and the request ends in the 500 failure body. -/
theorem c5_default_route_fallback (env : Env) (req : GenerateRequest)
    (world : RemoteWorld) (host f msg : String)
    (hfile : req.file = some f) (hsvc : req.service = none)
    (hfail : (generateWithHuggingFace env world.hfOutcome).1 = .error msg) :
    (∀ t, env.replicateToken = some t →
      (postGenerate env req world host).replicateNetworkCalled = true ∧
      (∀ r, world.replicateOutcome = .ok r →
        (postGenerate env req world host).response = .ok
          ⟨"Image processing completed", host ++ "/" ++ f,
            jsOrOpt r.urlsGet r.id, jsOrDefault req.prompt defaultPrompt,
            some "Replicate (Free Tier)", "completed"⟩) ∧
      (∀ e, world.replicateOutcome = .error e →
        (postGenerate env req world host).response = .serverError
          ⟨"Failed to generate product image", e, hfSetupText, replicateSetupText⟩)) ∧
    (env.replicateToken = none →
      (postGenerate env req world host).replicateInvoked = false ∧
      (postGenerate env req world host).replicateNetworkCalled = false ∧
      (postGenerate env req world host).response = .serverError
        ⟨"Failed to generate product image", "No AI service configured properly",
          hfSetupText, replicateSetupText⟩) := by
  constructor
  · intro t htok
    refine ⟨?_, ?_, ?_⟩
    · rcases hw : world.replicateOutcome with e | r <;>
        simp [postGenerate, hfile, hsvc, hfRoute_none, hfail, htok,
          generateWithReplicate, hw]
    · intro r hw
      simp [postGenerate, hfile, hsvc, hfRoute_none, hfail, htok,
        generateWithReplicate, hw]
    · intro e hw
      simp [postGenerate, hfile, hsvc, hfRoute_none, hfail, htok,
        generateWithReplicate, hw]
  · intro htok
    refine ⟨?_, ?_, ?_⟩ <;>
      simp [postGenerate, hfile, hsvc, hfRoute_none, hfail, htok]

/-- C5 witness: instantiation at a concrete fallback request whose
Replicate call succeeds. -/
theorem c5_default_route_fallback_witness :
    (postGenerate ⟨none, some "tok"⟩ ⟨some "uploads/g.png", none, none⟩
        ⟨.error "boom", .ok ⟨some "https://r/out.png", some "pr-1"⟩, 12⟩
        "http://h").response = .ok
      ⟨"Image processing completed", "http://h" ++ "/" ++ "uploads/g.png",
        jsOrOpt (some "https://r/out.png") (some "pr-1"),
        jsOrDefault none defaultPrompt,
        some "Replicate (Free Tier)", "completed"⟩ :=
  (((c5_default_route_fallback ⟨none, some "tok"⟩ ⟨some "uploads/g.png", none, none⟩
      ⟨.error "boom", .ok ⟨some "https://r/out.png", some "pr-1"⟩, 12⟩
      "http://h" "uploads/g.png" hfNotConfiguredMsg rfl rfl rfl).1 "tok" rfl).2.1
    ⟨some "https://r/out.png", some "pr-1"⟩ rfl)

/-- C6: POST /generate-simple never invokes Replicate, whatever the
environment holds; with a truthy prompt it answers 500 with the error
details and the setup guidance when the Hugging Face call fails, and 200
with the generated URL, the prompt and the service label when it succeeds. -/
theorem c6_generate_simple_hf_only (env : Env) (p : Option String)
    (world : RemoteWorld) (host : String) :
    (postGenerateSimple env p world host).replicateInvoked = false ∧
    (jsTruthy p = true →
      (∀ m, (generateWithHuggingFace env world.hfOutcome).1 = .error m →
        (postGenerateSimple env p world host).response = .serverError
          ⟨"Failed to generate image", m, simpleSetupText⟩) ∧
      (∀ b, (generateWithHuggingFace env world.hfOutcome).1 = .ok b →
        (postGenerateSimple env p world host).response = .ok
          ⟨"Image generated successfully",
            host ++ "/generated/" ++ generatedFilename world.now,
            p.getD "", "Hugging Face (FREE)"⟩)) := by
  constructor
  · rcases hhf : (generateWithHuggingFace env world.hfOutcome).1 with m | b <;>
      by_cases hp : jsTruthy p <;>
      simp [postGenerateSimple, hp, hhf]
  · intro hp
    constructor
    · intro m hhf
      simp [postGenerateSimple, hp, hhf]
    · intro b hhf
      simp [postGenerateSimple, hp, hhf]

/-- C6 witness: instantiation at a concrete request where Hugging Face is
unconfigured but Replicate is configured: the answer is the 500 body and
Replicate stays uninvoked. -/
theorem c6_generate_simple_hf_only_witness :
    (postGenerateSimple ⟨none, some "tok"⟩ (some "red sneaker")
        ⟨.error "unused", .ok ⟨some "u", some "i"⟩, 13⟩ "http://h").replicateInvoked = false ∧
    (postGenerateSimple ⟨none, some "tok"⟩ (some "red sneaker")
        ⟨.error "unused", .ok ⟨some "u", some "i"⟩, 13⟩ "http://h").response = .serverError
      ⟨"Failed to generate image", hfNotConfiguredMsg, simpleSetupText⟩ :=
  ⟨(c6_generate_simple_hf_only ⟨none, some "tok"⟩ (some "red sneaker")
      ⟨.error "unused", .ok ⟨some "u", some "i"⟩, 13⟩ "http://h").1,
    ((c6_generate_simple_hf_only ⟨none, some "tok"⟩ (some "red sneaker")
      ⟨.error "unused", .ok ⟨some "u", some "i"⟩, 13⟩ "http://h").2 rfl).1
      hfNotConfiguredMsg rfl⟩

end ProductImageGenerator

namespace ProductImageGenerator

lemma postGenerate_ok_prompt (env : Env) (req : GenerateRequest)
    (world : RemoteWorld) (host : String) (body : GenerateOkBody)
    (hresp : (postGenerate env req world host).response = .ok body) :
    body.prompt = jsOrDefault req.prompt defaultPrompt := by
  rcases hfile : req.file with _ | f
  · simp [postGenerate, hfile] at hresp
  · by_cases hr : hfRoute req.service
    · rcases hhf : (generateWithHuggingFace env world.hfOutcome).1 with m | b
      · rcases htok : env.replicateToken with _ | t
        · simp [postGenerate, hfile, hr, hhf, htok] at hresp
        · rcases hrep : world.replicateOutcome with e | r
          · simp [postGenerate, hfile, hr, hhf, htok,
              generateWithReplicate, hrep] at hresp
          · simp [postGenerate, hfile, hr, hhf, htok,
              generateWithReplicate, hrep] at hresp
            rw [← hresp]
      · simp [postGenerate, hfile, hr, hhf] at hresp
        rw [← hresp]
    · simp [postGenerate, hfile, hr] at hresp
      rw [← hresp]

/-- C9: a prompt field equal to the empty string is treated exactly as an
absent prompt by POST /generate: the two requests produce identical
outcomes, the substituted default prompt is never empty, and no 200
response ever carries an empty prompt value. -/
theorem c9_empty_prompt_default (env : Env) (world : RemoteWorld)
    (host f : String) (svc : Option String) :
    postGenerate env ⟨some f, some "", svc⟩ world host =
      postGenerate env ⟨some f, none, svc⟩ world host ∧
    (∀ p : Option String, jsOrDefault p defaultPrompt ≠ "") ∧
    (∀ (p : Option String) (body : GenerateOkBody),
      (postGenerate env ⟨some f, p, svc⟩ world host).response = .ok body →
      body.prompt ≠ "") := by
  refine ⟨rfl, jsOrDefault_defaultPrompt_ne_empty, ?_⟩
  intro p body hresp
  rw [postGenerate_ok_prompt env ⟨some f, p, svc⟩ world host body hresp]
  exact jsOrDefault_defaultPrompt_ne_empty p

/-- C9 witness: instantiation at a concrete request carrying an empty
prompt field: the response uses the non-empty default prompt. -/
theorem c9_empty_prompt_default_witness :
    (postGenerate ⟨some "k", none⟩ ⟨some "u.png", some "", none⟩
        ⟨.ok [2], .error "e", 6⟩ "http://h").response = .ok
      ⟨"Image processing completed", "http://h/u.png",
        some "http://h/generated/generated-6.png", defaultPrompt,
        some "Hugging Face (FREE)", "completed"⟩ ∧
    (⟨"Image processing completed", "http://h/u.png",
        some "http://h/generated/generated-6.png", defaultPrompt,
        some "Hugging Face (FREE)", "completed"⟩ : GenerateOkBody).prompt ≠ "" :=
  ⟨rfl,
    (c9_empty_prompt_default ⟨some "k", none⟩ ⟨.ok [2], .error "e", 6⟩
      "http://h" "u.png" none).2.2 (some "")
      ⟨"Image processing completed", "http://h/u.png",
        some "http://h/generated/generated-6.png", defaultPrompt,
        some "Hugging Face (FREE)", "completed"⟩ rfl⟩

/-- C10: the Replicate client always posts the hardcoded placeholder URL as
human_img; the image URL argument goes only to garm_img and the prompt to
garment_des, and the handler passes exactly the uploaded image URL and the
resolved prompt as those arguments. -/
theorem c10_replicate_human_img_placeholder (env : Env)
    (prompt imageUrl : String) (remote : Except String ReplicateResult)
    (t : String) (htok : env.replicateToken = some t) :
    (generateWithReplicate env prompt imageUrl remote).2.2 =
      some ⟨imageUrl, humanImgDefault, prompt⟩ ∧
    (∀ (req : GenerateRequest) (world : RemoteWorld) (host f : String)
        (inp : ReplicateInput),
      req.file = some f →
      (postGenerate env req world host).replicateRequest = some inp →
      inp.human_img = humanImgDefault ∧
      inp.garm_img = host ++ "/" ++ f ∧
      inp.garment_des = jsOrDefault req.prompt defaultPrompt) := by
  constructor
  · simp [generateWithReplicate, htok]
  · intro req world host f inp hfile hreq
    by_cases hr : hfRoute req.service
    · rcases hhf : (generateWithHuggingFace env world.hfOutcome).1 with m | b
      · rcases hrep : world.replicateOutcome with e | r
        · simp [postGenerate, hfile, hr, hhf, htok,
            generateWithReplicate, hrep] at hreq
          rw [← hreq]
          exact ⟨rfl, rfl, rfl⟩
        · simp [postGenerate, hfile, hr, hhf, htok,
            generateWithReplicate, hrep] at hreq
          rw [← hreq]
          exact ⟨rfl, rfl, rfl⟩
      · simp [postGenerate, hfile, hr, hhf] at hreq
    · simp [postGenerate, hfile, hr] at hreq

/-- C10 witness: instantiation at a concrete fallback call showing the
payload fields actually sent. -/
theorem c10_replicate_human_img_placeholder_witness :
    (generateWithReplicate ⟨some "k", some "tok"⟩ "blue dress"
        "http://h/uploads/g.png" (.ok ⟨none, some "pr-9"⟩)).2.2 =
      some ⟨"http://h/uploads/g.png", humanImgDefault, "blue dress"⟩ :=
  (c10_replicate_human_img_placeholder ⟨some "k", some "tok"⟩ "blue dress"
    "http://h/uploads/g.png" (.ok ⟨none, some "pr-9"⟩) "tok" rfl).1

end ProductImageGenerator
